import Mathlib

/-!
Verification of `io-result-optional` (`src/lib.rs`).

The crate provides one extension method on `std::io::Result<T>`:

```
fn optional(self) -> io::Result<Option<T>> {
    match self {
        Ok(value) => Ok(Some(value)),
        Err(ref e) if e.kind() == io::ErrorKind::NotFound => Ok(None),
        Err(e) => Err(e),
    }
}
```

We embed `std::io::Error` by its observable content (its `ErrorKind`
classification plus its diagnostic message), `io::Result<T>` as a
two-variant sum, and `optional` as the direct translation of the match
above.
-/

/-- The classification tag of `std::io::ErrorKind`, as far as the code
inspects it: `NotFound` against every other kind.  A few concrete other
kinds are listed (they appear in the crate's tests and docs); `other`
covers the rest of the enumeration. -/
inductive ErrorKind where
  | notFound
  | permissionDenied
  | timedOut
  | other
  deriving DecidableEq, Repr

/-- Observable content of a `std::io::Error`: its kind and its
diagnostic message / cause representation. -/
structure IoError where
  kind : ErrorKind
  message : String
  deriving DecidableEq, Repr

/-- `std::io::Result<T>`: `Ok` with a payload or `Err` with an error. -/
inductive IoResult (T : Type) where
  | ok : T → IoResult T
  | err : IoError → IoResult T
  deriving DecidableEq, Repr

namespace IoResult

/-- Embedding of `IoResultOptional::optional` (src/lib.rs lines 71–77):
`Ok(value)` becomes `Ok(Some(value))`; `Err(e)` with `e.kind() == NotFound`
becomes `Ok(None)`; any other `Err(e)` is returned as-is. -/
def optional {T : Type} : IoResult T → IoResult (Option T)
  | .ok value => .ok (some value)
  | .err e => if e.kind = ErrorKind.notFound then .ok none else .err e

end IoResult

/-- C1: for every payload value `x`, applying `optional` to `Ok(x)`
yields `Ok(Some(x))` with `x` itself unchanged. -/
theorem optional_ok_maps_to_some {T : Type} (x : T) :
    (IoResult.ok x).optional = IoResult.ok (some x) := rfl

/-- C2: for every error `e` with kind `NotFound`, applying `optional` to
`Err(e)` yields `Ok(None)`, regardless of `e`'s message. -/
theorem optional_notFound_maps_to_none {T : Type} (e : IoError)
    (h : e.kind = ErrorKind.notFound) :
    (IoResult.err e : IoResult T).optional = IoResult.ok none := by
  simp [IoResult.optional, h]

/-- Witness for C2: the concrete `NotFound` error with message
"no such file" classifies to `Ok(None)`. -/
theorem optional_notFound_maps_to_none_witness :
    (IoResult.err ⟨ErrorKind.notFound, "no such file"⟩ : IoResult Nat).optional
      = IoResult.ok none :=
  optional_notFound_maps_to_none ⟨ErrorKind.notFound, "no such file"⟩ rfl

/-- C3: for every error `e` whose kind is not `NotFound`, applying
`optional` to `Err(e)` yields `Err(e)` itself: the same error value,
kind and message preserved exactly. -/
theorem optional_other_error_passthrough {T : Type} (e : IoError)
    (h : e.kind ≠ ErrorKind.notFound) :
    (IoResult.err e : IoResult T).optional = IoResult.err e := by
  simp [IoResult.optional, h]

/-- Witness for C3: a `TimedOut` error with message "too slow" passes
through unchanged. -/
theorem optional_other_error_passthrough_witness :
    (IoResult.err ⟨ErrorKind.timedOut, "too slow"⟩ : IoResult Nat).optional
      = IoResult.err ⟨ErrorKind.timedOut, "too slow"⟩ :=
  optional_other_error_passthrough ⟨ErrorKind.timedOut, "too slow"⟩ (by decide)

/-- C4: totality — for every Access Outcome value `v`, `optional`
returns exactly one Presence Outcome (it is a total function). -/
theorem optional_total {T : Type} (v : IoResult T) :
    ∃! r : IoResult (Option T), v.optional = r :=
  ⟨v.optional, rfl, fun _ h => h.symm⟩

/-- C5: determinism — structurally-equal inputs yield structurally-equal
outputs; `optional` depends on nothing but its argument. -/
theorem optional_deterministic {T : Type} (v₁ v₂ : IoResult T)
    (h : v₁ = v₂) : v₁.optional = v₂.optional := by rw [h]

/-- Witness for C5: two separately constructed but structurally equal
inputs give equal outputs. -/
theorem optional_deterministic_witness :
    (IoResult.err ⟨ErrorKind.timedOut, "too slow"⟩ : IoResult Nat).optional
      = (IoResult.err ⟨ErrorKind.timedOut, "too slow"⟩ : IoResult Nat).optional :=
  optional_deterministic _ _ rfl

/-- C6: `optional` raises no failure of its own — the result is `Err(e)`
if and only if the input was `Err(e)` with `e.kind ≠ NotFound`, the
error forwarded verbatim. -/
theorem optional_err_iff {T : Type} (v : IoResult T) (e : IoError) :
    v.optional = IoResult.err e ↔ v = IoResult.err e ∧ e.kind ≠ ErrorKind.notFound := by
  cases v with
  | ok x => simp [IoResult.optional]
  | err e₀ =>
    by_cases h : e₀.kind = ErrorKind.notFound
    · simp [IoResult.optional, h]
      rintro rfl
      exact h
    · simp [IoResult.optional, h]
      rintro rfl
      exact h

/-- C7: invariant of the output — `optional` never returns an error of
kind `NotFound`; such an error can never propagate past the call. -/
theorem optional_never_returns_notFound {T : Type} (v : IoResult T) (e : IoError)
    (h : v.optional = IoResult.err e) : e.kind ≠ ErrorKind.notFound :=
  ((optional_err_iff v e).mp h).2

/-- Witness for C7: instantiated at a concrete non-`NotFound` error. -/
theorem optional_never_returns_notFound_witness :
    IoError.kind ⟨ErrorKind.timedOut, "too slow"⟩ ≠ ErrorKind.notFound :=
  optional_never_returns_notFound
    (IoResult.err ⟨ErrorKind.timedOut, "too slow"⟩ : IoResult Nat)
    ⟨ErrorKind.timedOut, "too slow"⟩ (by decide)

/-- C8: non-injectivity on `NotFound` failures — any two `NotFound`
errors, even with different messages, map to the identical output
`Ok(None)`, so their diagnostic detail is discarded. -/
theorem optional_notFound_non_injective {T : Type} (e₁ e₂ : IoError)
    (h₁ : e₁.kind = ErrorKind.notFound) (h₂ : e₂.kind = ErrorKind.notFound) :
    (IoResult.err e₁ : IoResult T).optional = (IoResult.err e₂ : IoResult T).optional ∧
      (IoResult.err e₁ : IoResult T).optional = IoResult.ok none := by
  simp [IoResult.optional, h₁, h₂]

/-- Witness for C8: two `NotFound` errors with different messages give
the same `Ok(None)` output. -/
theorem optional_notFound_non_injective_witness :
    (IoResult.err ⟨ErrorKind.notFound, "no such file"⟩ : IoResult Nat).optional
        = (IoResult.err ⟨ErrorKind.notFound, "missing dir"⟩ : IoResult Nat).optional ∧
      (IoResult.err ⟨ErrorKind.notFound, "no such file"⟩ : IoResult Nat).optional
        = IoResult.ok none :=
  optional_notFound_non_injective ⟨ErrorKind.notFound, "no such file"⟩
    ⟨ErrorKind.notFound, "missing dir"⟩ rfl rfl

/-- C9: round-trip on success — `optional` returns `Ok(Some(v))` if and
only if the input was `Ok(v)`; no failure input can produce a present
value. -/
theorem optional_ok_some_iff {T : Type} (v : IoResult T) (x : T) :
    v.optional = IoResult.ok (some x) ↔ v = IoResult.ok x := by
  cases v with
  | ok y => simp [IoResult.optional]
  | err e =>
    by_cases h : e.kind = ErrorKind.notFound <;> simp [IoResult.optional, h]
